import Mathlib

/-!
Shallow embedding of `simulated.go` (package traefik_create_simulated),
a Traefik middleware plugin: on each inbound request it reads the body,
decodes a `CreateThingRequest`, posts a `CreateSimulatedDeviceRequest`
to the configured IoT hub, and on success re-attaches the original body
bytes and forwards to the next handler; every failure degrades to
`http.NotFound`.

Modelling notes:
* Byte slices are modelled as `String` (the request bodies in scope are text).
* `io.ReadAll(r.Body)` is modelled as an `Except String String` carried by
  the request (`.error e` = read error, `.ok s` = full contents).
* `json.NewDecoder(r).Decode(v)` is modelled after Go's decoder
  architecture: a scanner extracts the first complete JSON value
  (`scanValue`), which is then parsed (`parseValue`) and unmarshalled
  into the target struct with Go semantics (missing keys keep zero
  values, `null` is a no-op, field names match case-insensitively,
  later duplicate keys win, type mismatch errors).
* `url.Parse(...).String()` is modelled as the identity on strings free of
  ASCII control characters (Go's `net/url` only rejects control
  characters; the URLs in scope need no normalisation).
* `json.NewEncoder(&buf).Encode(v)` for the all-string struct
  `CreateSimulatedDeviceRequest` cannot fail in Go; it is modelled as the
  total function `encodeCreateSimulatedDeviceRequest` (fields in struct
  order, Go's HTML-aware string escaping, trailing newline). The
  `http.NewRequest` error branch is likewise dead code for the constant
  method "POST" and is not modelled.
* `http.Header` is a map from (canonical) names to value lists; the
  inbound header map is modelled as an association list (one entry per
  name, in Go's arbitrary map iteration order) and the outbound header
  map as a function `String → List String` built by `headerAdd` /
  `headerSet`, mirroring `Header.Add` / `Header.Set`.
* The Go source defines `LogEvent.print` (the only writer to standard
  output) but `logInfo` / `logWarn` / `logError` merely construct a
  `*LogEvent` and every call site discards the result, so the model
  records the constructed events in `ServeResult.logs` and the lines
  actually written to standard output in `ServeResult.printed`, which is
  always empty.
-/

namespace TraefikCreateSimulated

/-! ## Data model (`simulated.go` lines 30-58) -/

abbrev HardwareId := String
abbrev Product := String
abbrev SimulatorType := String

def ProductTracker : Product := "TRACKER"

def SimulatorTypeManual : SimulatorType := "MANUAL"

structure DeviceLinkOperation where
  hardwareId : HardwareId
  product : Product
deriving DecidableEq

structure CreateThingRequest where
  deviceLinkOperation : DeviceLinkOperation
deriving DecidableEq

structure CreateSimulatedDeviceRequest where
  hardwareId : HardwareId
  product : Product
  simulatorType : SimulatorType
deriving DecidableEq

/-- Go zero value of `DeviceLinkOperation`. -/
def DeviceLinkOperation.zero : DeviceLinkOperation := ⟨"", ""⟩

/-- Go zero value of `CreateThingRequest` (the `&CreateThingRequest{}`
passed to `Decode`). -/
def CreateThingRequest.zero : CreateThingRequest := ⟨DeviceLinkOperation.zero⟩

/-! ## JSON decoder model

Go's `json.Decoder.Decode` reads exactly the first complete JSON value
from the stream (trailing bytes stay in the buffer), then unmarshals it.
`scanValue` extracts that first value; `parseValue` parses it;
`unmarshalCreateThingRequest` applies Go's struct-unmarshal semantics. -/

def isWS (c : Char) : Bool := c = ' ' || c = '\t' || c = '\n' || c = '\r'

def skipWS : List Char → List Char
  | [] => []
  | c :: cs => if isWS c then skipWS cs else c :: cs

/-- Scan the tail of a JSON string literal (opening quote already
consumed); returns the consumed characters (closing quote included) and
the remainder. -/
def scanStringTail : List Char → Option (List Char × List Char)
  | [] => none
  | '"' :: cs => some (['"'], cs)
  | '\\' :: [] => none
  | '\\' :: c :: cs =>
    match scanStringTail cs with
    | none => none
    | some (v, r) => some ('\\' :: c :: v, r)
  | c :: cs =>
    match scanStringTail cs with
    | none => none
    | some (v, r) => some (c :: v, r)

/-- One step of the container scanner: given the current character and
state (bracket depth, inside-string flag, escape flag), either the
top-level container just closed (`done`) or scanning continues in the
returned state. -/
inductive ScanAction where
  | done
  | go (depth : Nat) (inStr esc : Bool)
deriving DecidableEq

def scanCharAction (c : Char) (depth : Nat) (inStr esc : Bool) : ScanAction :=
  if inStr then
    if esc then .go depth true false
    else if c = '\\' then .go depth true true
    else if c = '"' then .go depth false false
    else .go depth true false
  else
    if c = '"' then .go depth true false
    else if c = '{' || c = '[' then .go (depth + 1) false false
    else if (c = '}' || c = ']') && depth = 1 then .done
    else if c = '}' || c = ']' then .go (depth - 1) false false
    else .go depth false false

/-- Scan to the close of the current container (opening bracket already
consumed, `depth` counts open brackets); returns the consumed characters
(closing bracket included) and the remainder. -/
def scanContainer : List Char → Nat → Bool → Bool → Option (List Char × List Char)
  | [], _, _, _ => none
  | c :: cs, depth, inStr, esc =>
    match scanCharAction c depth inStr esc with
    | .done => some ([c], cs)
    | .go d i e =>
      match scanContainer cs d i e with
      | none => none
      | some (v, r) => some (c :: v, r)

/-- Characters Go's scanner accepts inside an undelimited literal or
number token at top level. -/
def isLiteralChar (c : Char) : Bool :=
  c.isAlphanum || c = '-' || c = '+' || c = '.'

/-- Extract the first complete JSON value from the input (the part of
`Decoder.Decode` that decides how many bytes the first value occupies);
`none` models the EOF / unterminated-input error. -/
def scanValue (cs : List Char) : Option (List Char × List Char) :=
  match skipWS cs with
  | [] => none
  | c :: rest =>
    if c = '{' || c = '[' then
      match scanContainer rest 1 false false with
      | none => none
      | some (v, r) => some (c :: v, r)
    else if c = '"' then
      match scanStringTail rest with
      | none => none
      | some (v, r) => some (c :: v, r)
    else
      some (List.takeWhile isLiteralChar (c :: rest),
            List.dropWhile isLiteralChar (c :: rest))

inductive Json where
  | null : Json
  | bool (b : Bool) : Json
  | num (digits : String) : Json
  | str (s : String) : Json
  | arr (elems : List Json) : Json
  | obj (fields : List (String × Json)) : Json

def hexVal (c : Char) : Option Nat :=
  if '0' ≤ c ∧ c ≤ '9' then some (c.toNat - '0'.toNat)
  else if 'a' ≤ c ∧ c ≤ 'f' then some (c.toNat - 'a'.toNat + 10)
  else if 'A' ≤ c ∧ c ≤ 'F' then some (c.toNat - 'A'.toNat + 10)
  else none

def unescapeChar (c : Char) : Option Char :=
  if c = '"' then some '"'
  else if c = '\\' then some '\\'
  else if c = '/' then some '/'
  else if c = 'b' then some (Char.ofNat 8)
  else if c = 'f' then some (Char.ofNat 12)
  else if c = 'n' then some '\n'
  else if c = 'r' then some '\r'
  else if c = 't' then some '\t'
  else none

/-- Parse the body of a JSON string literal (opening quote consumed),
decoding escapes; returns the decoded string and the remainder after the
closing quote. -/
def parseStringBody : Nat → List Char → Except String (String × List Char)
  | 0, _ => .error "parser out of fuel"
  | _ + 1, [] => .error "unexpected end of string literal"
  | fuel + 1, c :: cs =>
    if c = '"' then .ok ("", cs)
    else if c = '\\' then
      match cs with
      | [] => .error "unexpected end of escape"
      | e :: cs2 =>
        if e = 'u' then
          match cs2 with
          | h1 :: h2 :: h3 :: h4 :: cs3 =>
            match hexVal h1, hexVal h2, hexVal h3, hexVal h4 with
            | some a, some b, some c2, some d =>
              (parseStringBody fuel cs3).map
                (fun p => (String.mk [Char.ofNat (((a * 16 + b) * 16 + c2) * 16 + d)] ++ p.1, p.2))
            | _, _, _, _ => .error "invalid unicode escape"
          | _ => .error "invalid unicode escape"
        else
          match unescapeChar e with
          | some ch => (parseStringBody fuel cs2).map (fun p => (String.mk [ch] ++ p.1, p.2))
          | none => .error "invalid escape character"
    else
      (parseStringBody fuel cs).map (fun p => (String.mk [c] ++ p.1, p.2))

def isNumChar (c : Char) : Bool :=
  c.isDigit || c = '-' || c = '+' || c = '.' || c = 'e' || c = 'E'

mutual

/-- Recursive-descent parser for one JSON value (fuelled; the fuel is
always instantiated to more than the input length). -/
def parseValue : Nat → List Char → Except String (Json × List Char)
  | 0, _ => .error "parser out of fuel"
  | fuel + 1, cs =>
    match skipWS cs with
    | [] => .error "unexpected end of input"
    | c :: rest =>
      if c = '{' then
        match skipWS rest with
        | '}' :: r2 => .ok (.obj [], r2)
        | r1 =>
          match parseMembers fuel r1 with
          | .ok (fs, r2) => .ok (.obj fs, r2)
          | .error e => .error e
      else if c = '[' then
        match skipWS rest with
        | ']' :: r2 => .ok (.arr [], r2)
        | r1 =>
          match parseElems fuel r1 with
          | .ok (xs, r2) => .ok (.arr xs, r2)
          | .error e => .error e
      else if c = '"' then
        (parseStringBody (fuel + 1) rest).map (fun p => (.str p.1, p.2))
      else if c = 't' then
        match rest with
        | 'r' :: 'u' :: 'e' :: r => .ok (.bool true, r)
        | _ => .error "invalid literal"
      else if c = 'f' then
        match rest with
        | 'a' :: 'l' :: 's' :: 'e' :: r => .ok (.bool false, r)
        | _ => .error "invalid literal"
      else if c = 'n' then
        match rest with
        | 'u' :: 'l' :: 'l' :: r => .ok (.null, r)
        | _ => .error "invalid literal"
      else if isNumChar c then
        .ok (.num (String.mk (List.takeWhile isNumChar (c :: rest))),
             List.dropWhile isNumChar (c :: rest))
      else .error "invalid character"

/-- Parse object members `"k" : v ("," "k" : v)* "}"`. -/
def parseMembers : Nat → List Char → Except String (List (String × Json) × List Char)
  | 0, _ => .error "parser out of fuel"
  | fuel + 1, cs =>
    match skipWS cs with
    | '"' :: rest =>
      match parseStringBody (fuel + 1) rest with
      | .error e => .error e
      | .ok (k, r1) =>
        match skipWS r1 with
        | ':' :: r2 =>
          match parseValue fuel r2 with
          | .error e => .error e
          | .ok (v, r3) =>
            match skipWS r3 with
            | ',' :: r4 =>
              match parseMembers fuel r4 with
              | .ok (fs, r5) => .ok ((k, v) :: fs, r5)
              | .error e => .error e
            | '}' :: r4 => .ok ([(k, v)], r4)
            | _ => .error "expected comma or closing brace"
        | _ => .error "expected colon"
    | _ => .error "expected object key"

/-- Parse array elements `v ("," v)* "]"`. -/
def parseElems : Nat → List Char → Except String (List Json × List Char)
  | 0, _ => .error "parser out of fuel"
  | fuel + 1, cs =>
    match parseValue fuel cs with
    | .error e => .error e
    | .ok (v, r1) =>
      match skipWS r1 with
      | ',' :: r2 =>
        match parseElems fuel r2 with
        | .ok (xs, r3) => .ok (v :: xs, r3)
        | .error e => .error e
      | ']' :: r2 => .ok (v :: [], r2)
      | _ => .error "expected comma or closing bracket"

end

def asciiToLower (c : Char) : Char :=
  if 'A' ≤ c ∧ c ≤ 'Z' then Char.ofNat (c.toNat + 32) else c

/-- Go's `encoding/json` field-name matching (exact or case-insensitive
fold; the struct tags in scope are pure ASCII). -/
def keyMatches (k name : String) : Bool :=
  k.data.map asciiToLower == name.data.map asciiToLower

/-- Unmarshal a JSON value into a Go `string` field currently holding
`cur` (`null` is a no-op, non-strings are a type error). -/
def unmarshalString (j : Json) (cur : String) : Except String String :=
  match j with
  | .str s => .ok s
  | .null => .ok cur
  | _ => .error "cannot unmarshal value into string field"

/-- Unmarshal into `DeviceLinkOperation`: keys are processed in order
(later duplicates overwrite), unknown keys are ignored, missing keys
keep the current (zero) values. -/
def unmarshalDeviceLinkOperation (j : Json) (cur : DeviceLinkOperation) :
    Except String DeviceLinkOperation :=
  match j with
  | .null => .ok cur
  | .obj fs =>
    fs.foldlM (fun s kv =>
      if keyMatches kv.1 "identifier" then
        (unmarshalString kv.2 s.hardwareId).map (fun v => { s with hardwareId := v })
      else if keyMatches kv.1 "product" then
        (unmarshalString kv.2 s.product).map (fun v => { s with product := v })
      else .ok s) cur
  | _ => .error "cannot unmarshal value into DeviceLinkOperation"

/-- Unmarshal into `CreateThingRequest` (envelope with the single key
`deviceLinkOperation`). -/
def unmarshalCreateThingRequest (j : Json) (cur : CreateThingRequest) :
    Except String CreateThingRequest :=
  match j with
  | .null => .ok cur
  | .obj fs =>
    fs.foldlM (fun s kv =>
      if keyMatches kv.1 "deviceLinkOperation" then
        (unmarshalDeviceLinkOperation kv.2 s.deviceLinkOperation).map (fun v => ⟨v⟩)
      else .ok s) cur
  | _ => .error "cannot unmarshal value into CreateThingRequest"

/-- Model of `json.NewDecoder(bytes.NewReader(body)).Decode(cr)` with
`cr := &CreateThingRequest{}` (`simulated.go` lines 101-107): extract
the first complete JSON value, parse it, unmarshal it; any bytes after
the first value are left unread. -/
def decodeCreateThingRequest (body : String) : Except String CreateThingRequest :=
  match scanValue body.data with
  | none => .error "EOF"
  | some (v, _rest) =>
    match parseValue (v.length + 1) v with
    | .error e => .error e
    | .ok (j, rem) =>
      if rem.isEmpty then unmarshalCreateThingRequest j CreateThingRequest.zero
      else .error "invalid character after top-level value"

/-- Parse a whole JSON document (first value; used to state what an
outbound body deserialises to). -/
def parseJsonDocument (s : String) : Except String Json :=
  match scanValue s.data with
  | none => .error "EOF"
  | some (v, _rest) =>
    match parseValue (v.length + 1) v with
    | .error e => .error e
    | .ok (j, rem) =>
      if rem.isEmpty then .ok j
      else .error "invalid character after top-level value"

/-! ## JSON encoder model (`json.NewEncoder(&csdrJson).Encode(csdr)`) -/

def hexDigit (n : Nat) : Char :=
  if n < 10 then Char.ofNat ('0'.toNat + n) else Char.ofNat ('a'.toNat + n - 10)

/-- Go's JSON string escaping (HTML-escaping on, as by default). -/
def escapeJsonChar (c : Char) : String :=
  if c = '"' then "\\\""
  else if c = '\\' then "\\\\"
  else if c = '<' then "\\u003c"
  else if c = '>' then "\\u003e"
  else if c = '&' then "\\u0026"
  else if c = '\n' then "\\n"
  else if c = '\r' then "\\r"
  else if c = '\t' then "\\t"
  else if c.toNat < 32 then
    "\\u00" ++ String.mk [hexDigit (c.toNat / 16), hexDigit (c.toNat % 16)]
  else String.mk [c]

def encodeJsonString (s : String) : String :=
  "\"" ++ String.join (s.data.map escapeJsonChar) ++ "\""

/-- JSON marshalling of `CreateSimulatedDeviceRequest` (struct field
order; `Encoder.Encode` appends a newline). Marshalling a struct of
strings cannot fail in Go, so this is total and the corresponding
error branch in `ServeHTTP` is dead code. -/
def encodeCreateSimulatedDeviceRequest (r : CreateSimulatedDeviceRequest) : String :=
  "\x7b\"hardwareId\":" ++ encodeJsonString r.hardwareId ++
  ",\"productId\":" ++ encodeJsonString r.product ++
  ",\"simulatorType\":" ++ encodeJsonString r.simulatorType ++ "\x7d\n"

/-! ## HTTP model -/

/-- An outbound header map, as mutated by `Header.Add` / `Header.Set`
(names assumed already canonical, as Traefik delivers them). -/
abbrev HeaderMap := String → List String

def emptyHeaders : HeaderMap := fun _ => []

/-- `req.Header.Add(key, value)`: append `value` to the slice for `key`. -/
def headerAdd (h : HeaderMap) (key value : String) : HeaderMap :=
  fun k => if k = key then h k ++ [value] else h k

/-- `req.Header.Set(key, value)`: replace the slice for `key`. -/
def headerSet (h : HeaderMap) (key value : String) : HeaderMap :=
  fun k => if k = key then [value] else h k

/-- The header-copy loop of `ServeHTTP` (`simulated.go` lines 137-141):
`for h, v := range r.Header { for _, sv := range v { req.Header.Add(h, sv) } }`,
starting from the empty header map of the fresh outbound request. The
inbound map is given as its (arbitrary-order) entry list. -/
def copyHeaders (inbound : List (String × List String)) : HeaderMap :=
  inbound.foldl
    (fun acc kv => kv.2.foldl (fun a sv => headerAdd a kv.1 sv) acc)
    emptyHeaders

/-- An `io.ReadCloser` request body: what `io.ReadAll` on it yields, and
what `Close` returns (`none` = nil error). -/
structure BodyStream where
  readAllResult : Except String String
  closeResult : Option String

/-- `NoOpCloser(bytes.NewReader(contents))` (`simulated.go` lines
167-176): reading yields the in-memory bytes, `Close` returns nil. -/
def NoOpCloser (contents : String) : BodyStream :=
  { readAllResult := .ok contents, closeResult := none }

structure Request where
  headers : List (String × List String)
  body : BodyStream

/-- The response returned by `plugin.client.Do`: status code, status
text, and what `io.ReadAll(resp.Body)` yields. -/
structure HttpResponse where
  statusCode : Int
  status : String
  bodyReadResult : Except String String

/-- The outbound request handed to `plugin.client.Do`. -/
structure OutboundRequest where
  method : String
  url : String
  body : String
  headers : HeaderMap

/-- A constructed log record (`simulated.go` lines 60-67, 186-200;
`newLogEvent` leaves `Time`, `Network` and `URL` at their zero values on
every path reached from `ServeHTTP`). -/
structure LogEvent where
  level : String
  msg : String
deriving DecidableEq

def logInfo (msg : String) : LogEvent := ⟨"info", msg⟩

def logWarn (msg : String) : LogEvent := ⟨"warn", msg⟩

def logError (msg : String) : LogEvent := ⟨"error", msg⟩

/-- What the handler does with the response writer `w` (identified by a
token) and the request: either it writes a response itself
(`http.NotFound` = status 404 with Go's fixed body) or it invokes
`plugin.next.ServeHTTP(w, r)` on the (body-restored) request. -/
inductive Outcome where
  | response (status : Nat) (body : String)
  | forward (writer : Nat) (req : Request)

def notFoundStatus : Nat := 404

def notFoundBody : String := "404 page not found\n"

/-- Everything observable about one run of `ServeHTTP`: the outcome, the
outbound request handed to `client.Do` (if one was built), the log
events constructed, and the lines actually written to standard output. -/
structure ServeResult where
  outcome : Outcome
  outboundReq : Option OutboundRequest
  logs : List LogEvent
  printed : List String

/-! ## Plugin (`simulated.go` lines 14-90) -/

structure Config where
  IotHubUrl : String
  SubscriptionKey : String

def CreateConfig : Config := ⟨"", ""⟩

structure SimulatedPlugin where
  iotHubUrl : String
  subscriptionKey : String

def New (config : Config) : SimulatedPlugin :=
  { iotHubUrl := config.IotHubUrl, subscriptionKey := config.SubscriptionKey }

def iotHubPath : String := "/simulator/simulated/device"

def subscriptionKeyHeader : String := "X-Subscription-Key"

/-- Model of `url.Parse(s)` followed by `.String()`: Go's `net/url`
rejects exactly the strings containing ASCII control characters, and the
URLs in scope round-trip unchanged. -/
def urlParse (s : String) : Except String String :=
  if s.data.all (fun c => 32 ≤ c.toNat && c.toNat ≠ 127) then .ok s
  else .error "net/url: invalid control character in URL"

/-- `ServeHTTP` (`simulated.go` lines 92-165). `w` is an opaque token
for the response writer, `doResult` is what `plugin.client.Do` returns
for this request. Each stage failure logs and answers `http.NotFound`.
The `Encode` and `http.NewRequest` error branches of the source are dead
code (marshalling an all-string struct with method "POST" cannot fail)
and have no corresponding branch here. No constructed log event is ever
printed (`LogEvent.print` has no call site), so `printed` is `[]` on
every path. -/
def ServeHTTP (plugin : SimulatedPlugin) (w : Nat) (r : Request)
    (doResult : Except String HttpResponse) : ServeResult :=
  match r.body.readAllResult with
  | .error e =>
    { outcome := .response notFoundStatus notFoundBody, outboundReq := none,
      logs := [logError ("error reading body: " ++ e)], printed := [] }
  | .ok body =>
    match decodeCreateThingRequest body with
    | .error e =>
      { outcome := .response notFoundStatus notFoundBody, outboundReq := none,
        logs := [logError ("error decoding body: " ++ e)], printed := [] }
    | .ok cr =>
      let warnLog := logWarn ("found deviceId=" ++ cr.deviceLinkOperation.hardwareId)
      match urlParse (plugin.iotHubUrl ++ iotHubPath) with
      | .error e =>
        { outcome := .response notFoundStatus notFoundBody, outboundReq := none,
          logs := [warnLog, logError ("error creating url: " ++ e)], printed := [] }
      | .ok u =>
        let csdr : CreateSimulatedDeviceRequest :=
          { hardwareId := cr.deviceLinkOperation.hardwareId,
            product := cr.deviceLinkOperation.product,
            simulatorType := SimulatorTypeManual }
        let req : OutboundRequest :=
          { method := "POST", url := u,
            body := encodeCreateSimulatedDeviceRequest csdr,
            headers := headerSet (copyHeaders r.headers)
              subscriptionKeyHeader plugin.subscriptionKey }
        match doResult with
        | .error e =>
          { outcome := .response notFoundStatus notFoundBody, outboundReq := some req,
            logs := [warnLog, logError ("error performing request to iothub: " ++ e)],
            printed := [] }
        | .ok resp =>
          if 300 ≤ resp.statusCode ∨ resp.statusCode < 200 then
            { outcome := .response notFoundStatus notFoundBody, outboundReq := some req,
              logs := [warnLog, logError ("iot hub status code error: " ++ resp.status)],
              printed := [] }
          else
            match resp.bodyReadResult with
            | .error e =>
              { outcome := .response notFoundStatus notFoundBody, outboundReq := some req,
                logs := [warnLog, logError ("error reading iot hub response: " ++ e)],
                printed := [] }
            | .ok rb =>
              { outcome := .forward w { headers := r.headers, body := NoOpCloser body },
                outboundReq := some req,
                logs := [warnLog, logError ("iot hub device created: " ++ rb)],
                printed := [] }

/-- All seven pipeline stages succeed for these inputs (the `Encode` and
`NewRequest` stages cannot fail, see `ServeHTTP`): body read, payload
decode, URL build, outbound transport, 2xx status, response body read. -/
def AllStagesOk (plugin : SimulatedPlugin) (r : Request)
    (doResult : Except String HttpResponse) : Bool :=
  match r.body.readAllResult with
  | .error _ => false
  | .ok body =>
    match decodeCreateThingRequest body with
    | .error _ => false
    | .ok _ =>
      match urlParse (plugin.iotHubUrl ++ iotHubPath) with
      | .error _ => false
      | .ok _ =>
        match doResult with
        | .error _ => false
        | .ok resp =>
          if 300 ≤ resp.statusCode ∨ resp.statusCode < 200 then false
          else
            match resp.bodyReadResult with
            | .error _ => false
            | .ok _ => true

/-! ## Example fixtures -/

/-- A plugin as built by `New` from a typical configuration. -/
def examplePlugin : SimulatedPlugin :=
  New { IotHubUrl := "http://iothub.example", SubscriptionKey := "secret-key" }

/-- The inbound payload of the spec's example. -/
def exampleBody : String :=
  "\x7b\"deviceLinkOperation\":\x7b\"identifier\":\"dev-123\",\"product\":\"TRACKER\"\x7d\x7d"

def exampleRequest : Request :=
  { headers := [("Content-Type", ["application/json"]),
                ("X-Subscription-Key", ["caller-supplied"])],
    body := { readAllResult := .ok exampleBody, closeResult := none } }

/-- An outbound response with the given status code whose body reads
fine. -/
def respWith (code : Int) : HttpResponse :=
  { statusCode := code, status := "status text", bodyReadResult := .ok "created" }

/-- A decodable payload whose product is not in the TRACKER enumeration. -/
def toasterBody : String :=
  "\x7b\"deviceLinkOperation\":\x7b\"identifier\":\"dev-9\",\"product\":\"TOASTER\"\x7d\x7d"

def toasterRequest : Request :=
  { headers := [],
    body := { readAllResult := Except.ok toasterBody, closeResult := none } }

/-! ## Header lemmas -/

theorem headerAdd_foldl (vs : List String) (acc : HeaderMap) (key k : String) :
    (vs.foldl (fun a sv => headerAdd a key sv) acc) k
      = if k = key then acc k ++ vs else acc k := by
  induction vs generalizing acc with
  | nil => split <;> simp
  | cons v vs ih =>
    rw [List.foldl_cons, ih]
    by_cases hk : k = key
    · simp [hk, headerAdd]
    · simp [hk, headerAdd]

theorem copyHeaders_foldl_apply (H : List (String × List String))
    (acc : HeaderMap) (k : String) :
    (H.foldl (fun a kv => kv.2.foldl (fun a2 sv => headerAdd a2 kv.1 sv) a) acc) k
      = acc k
        ++ (H.foldl (fun a kv => kv.2.foldl (fun a2 sv => headerAdd a2 kv.1 sv) a)
              emptyHeaders) k := by
  induction H generalizing acc with
  | nil => simp [emptyHeaders]
  | cons e H ih =>
    rw [List.foldl_cons, List.foldl_cons, ih]
    conv_rhs => rw [ih]
    rw [headerAdd_foldl, headerAdd_foldl]
    by_cases hk : k = e.1
    · simp [hk, emptyHeaders]
    · simp [hk, emptyHeaders]

theorem copyHeaders_not_mem (H : List (String × List String)) (k : String)
    (hk : k ∉ H.map Prod.fst) : copyHeaders H k = [] := by
  induction H with
  | nil => simp [copyHeaders, emptyHeaders]
  | cons e H ih =>
    simp only [List.map_cons, List.mem_cons, not_or] at hk
    simp only [copyHeaders, List.foldl_cons] at ih ⊢
    rw [copyHeaders_foldl_apply, headerAdd_foldl, if_neg hk.1, ih hk.2]
    simp [emptyHeaders]

theorem copyHeaders_apply (H : List (String × List String)) (k : String)
    (hnodup : (H.map Prod.fst).Nodup) :
    copyHeaders H k = ((H.lookup k).getD []) := by
  induction H with
  | nil => simp [copyHeaders, emptyHeaders]
  | cons e H ih =>
    simp only [List.map_cons, List.nodup_cons] at hnodup
    simp only [copyHeaders, List.foldl_cons] at ih ⊢
    rw [copyHeaders_foldl_apply, headerAdd_foldl]
    by_cases hk : k = e.1
    · have hbeq : (k == e.1) = true := beq_iff_eq.mpr hk
      have hnm : k ∉ H.map Prod.fst := by rw [hk]; exact hnodup.1
      have hz : (H.foldl (fun a kv => kv.2.foldl (fun a2 sv => headerAdd a2 kv.1 sv) a)
          emptyHeaders) k = [] := by
        have h0 := copyHeaders_not_mem H k hnm
        simpa [copyHeaders] using h0
      rw [hk] at hz
      simp [hk, hz, List.lookup, emptyHeaders]
    · have hbeq : (k == e.1) = false := beq_eq_false_iff_ne.mpr hk
      rw [if_neg hk, ih hnodup.2]
      simp [List.lookup, hbeq, emptyHeaders]

/-! ## Scanner lemmas (trailing bytes after the first JSON value) -/

theorem skipWS_append (xs ys : List Char) (h : skipWS xs ≠ []) :
    skipWS (xs ++ ys) = skipWS xs ++ ys := by
  induction xs with
  | nil => simp [skipWS] at h
  | cons x xs ih =>
    by_cases hx : isWS x = true
    · simp only [skipWS, hx, if_pos, List.cons_append] at h ⊢
      exact ih h
    · simp [skipWS, hx]

theorem scanContainer_append (cs t : List Char) (depth : Nat) (inStr esc : Bool)
    (v r : List Char) (h : scanContainer cs depth inStr esc = some (v, r)) :
    scanContainer (cs ++ t) depth inStr esc = some (v, r ++ t) := by
  induction cs generalizing depth inStr esc v r with
  | nil => simp [scanContainer] at h
  | cons c cs ih =>
    rw [List.cons_append]
    rw [scanContainer] at h ⊢
    cases hact : scanCharAction c depth inStr esc with
    | done =>
      rw [hact] at h
      simp only [Option.some.injEq, Prod.mk.injEq] at h
      simp [h.1, h.2]
    | go d i e =>
      rw [hact] at h
      dsimp only at h ⊢
      cases hs : scanContainer cs d i e with
      | none => rw [hs] at h; simp at h
      | some p =>
        obtain ⟨v2, r2⟩ := p
        rw [hs] at h
        simp only [Option.some.injEq, Prod.mk.injEq] at h
        rw [ih d i e v2 r2 hs]
        simp [h.1, h.2]

theorem scanValue_obj (s rest v : List Char)
    (hws : skipWS s = '{' :: rest)
    (hscan : scanContainer rest 1 false false = some (v, [])) :
    scanValue s = some ('{' :: v, []) := by
  rw [scanValue, hws]
  simp [hscan]

theorem scanValue_obj_append (s g rest v : List Char)
    (hws : skipWS s = '{' :: rest)
    (hscan : scanContainer rest 1 false false = some (v, [])) :
    scanValue (s ++ g) = some ('{' :: v, g) := by
  have hne : skipWS s ≠ [] := by rw [hws]; simp
  rw [scanValue, skipWS_append s g hne, hws, List.cons_append]
  have := scanContainer_append rest g 1 false false v [] hscan
  simp at this
  simp [this]

theorem decodeCreateThingRequest_append (s g : String) (rest v : List Char)
    (hws : skipWS s.data = '{' :: rest)
    (hscan : scanContainer rest 1 false false = some (v, [])) :
    decodeCreateThingRequest (s ++ g) = decodeCreateThingRequest s := by
  have h1 : scanValue (s ++ g).data = some ('{' :: v, g.data) := by
    have : (s ++ g).data = s.data ++ g.data := by
      simp [String.data]
    rw [this]
    exact scanValue_obj_append s.data g.data rest v hws hscan
  have h2 : scanValue s.data = some ('{' :: v, []) := scanValue_obj s.data rest v hws hscan
  rw [decodeCreateThingRequest, decodeCreateThingRequest, h1, h2]

/-! ## Shared pipeline lemmas -/

theorem urlParse_ok (s u : String) (h : urlParse s = Except.ok u) : u = s := by
  unfold urlParse at h
  split at h
  · cases h; rfl
  · cases h

/-- Once body read, decode and URL build succeed, the outbound request
handed to `client.Do` is the POST described at `simulated.go` lines
110-142, whatever `client.Do` then returns. -/
theorem serve_outboundReq (plugin : SimulatedPlugin) (w : Nat) (r : Request)
    (doResult : Except String HttpResponse) (body : String)
    (cr : CreateThingRequest) (u : String)
    (hread : r.body.readAllResult = Except.ok body)
    (hdec : decodeCreateThingRequest body = Except.ok cr)
    (hurl : urlParse (plugin.iotHubUrl ++ iotHubPath) = Except.ok u) :
    (ServeHTTP plugin w r doResult).outboundReq
      = some { method := "POST", url := u,
               body := encodeCreateSimulatedDeviceRequest
                 { hardwareId := cr.deviceLinkOperation.hardwareId,
                   product := cr.deviceLinkOperation.product,
                   simulatorType := SimulatorTypeManual },
               headers := headerSet (copyHeaders r.headers)
                 subscriptionKeyHeader plugin.subscriptionKey } := by
  cases doResult with
  | error e => simp [ServeHTTP, hread, hdec, hurl]
  | ok resp =>
    by_cases hc : 300 ≤ resp.statusCode ∨ resp.statusCode < 200
    · simp [ServeHTTP, hread, hdec, hurl, hc]
    · cases hrb : resp.bodyReadResult with
      | error e => simp [ServeHTTP, hread, hdec, hurl, hc, hrb]
      | ok rb => simp [ServeHTTP, hread, hdec, hurl, hc, hrb]

/-- No run of `ServeHTTP` writes anything to standard output: the
`logInfo` / `logWarn` / `logError` helpers only construct a `LogEvent`
and every call site discards it (`LogEvent.print` has no call site in
the source). -/
theorem serve_printed_empty (plugin : SimulatedPlugin) (w : Nat) (r : Request)
    (doResult : Except String HttpResponse) :
    (ServeHTTP plugin w r doResult).printed = [] := by
  cases hread : r.body.readAllResult with
  | error e => simp [ServeHTTP, hread]
  | ok body =>
    cases hdec : decodeCreateThingRequest body with
    | error e => simp [ServeHTTP, hread, hdec]
    | ok cr =>
      cases hurl : urlParse (plugin.iotHubUrl ++ iotHubPath) with
      | error e => simp [ServeHTTP, hread, hdec, hurl]
      | ok u =>
        cases doResult with
        | error e => simp [ServeHTTP, hread, hdec, hurl]
        | ok resp =>
          by_cases hc : 300 ≤ resp.statusCode ∨ resp.statusCode < 200
          · simp [ServeHTTP, hread, hdec, hurl, hc]
          · cases hrb : resp.bodyReadResult with
            | error e => simp [ServeHTTP, hread, hdec, hurl, hc, hrb]
            | ok rb => simp [ServeHTTP, hread, hdec, hurl, hc, hrb]

/-! ## Claims -/

/-- C1: for every inbound request whose body reads without error, whose
payload decodes, and whose outbound call returns a 2xx status (and whose
response body reads), the downstream handler is invoked with the original
response writer and a request whose body is byte-identical to the full
inbound body captured at the start (not the transformed provisioning
payload), and closing that restored body is a no-op returning no
error. -/
theorem serve_forwards_original_body
    (plugin : SimulatedPlugin) (w : Nat) (r : Request) (resp : HttpResponse)
    (body : String) (cr : CreateThingRequest) (u rb : String)
    (hread : r.body.readAllResult = Except.ok body)
    (hdec : decodeCreateThingRequest body = Except.ok cr)
    (hurl : urlParse (plugin.iotHubUrl ++ iotHubPath) = Except.ok u)
    (hstatus : 200 ≤ resp.statusCode ∧ resp.statusCode < 300)
    (hrb : resp.bodyReadResult = Except.ok rb) :
    (ServeHTTP plugin w r (Except.ok resp)).outcome
        = Outcome.forward w { headers := r.headers, body := NoOpCloser body }
      ∧ (NoOpCloser body).readAllResult = Except.ok body
      ∧ (NoOpCloser body).closeResult = none := by
  have hcond : ¬ (300 ≤ resp.statusCode ∨ resp.statusCode < 200) := by omega
  refine ⟨?_, rfl, rfl⟩
  simp [ServeHTTP, hread, hdec, hurl, hrb, hcond]

theorem serve_forwards_original_body_witness :
    (ServeHTTP examplePlugin 0 exampleRequest (Except.ok (respWith 201))).outcome
        = Outcome.forward 0
            { headers := exampleRequest.headers, body := NoOpCloser exampleBody }
      ∧ (NoOpCloser exampleBody).readAllResult = Except.ok exampleBody
      ∧ (NoOpCloser exampleBody).closeResult = none :=
  serve_forwards_original_body examplePlugin 0 exampleRequest (respWith 201)
    exampleBody ⟨⟨"dev-123", "TRACKER"⟩⟩
    "http://iothub.example/simulator/simulated/device" "created"
    rfl rfl rfl (by decide) rfl

/-- C2: given that body read, decode and URL build succeed and the
outbound response body reads fine, the request is forwarded downstream
if and only if the outbound status code lies in [200,300); outside that
range a not-found response is produced instead. -/
theorem serve_forward_iff_2xx
    (plugin : SimulatedPlugin) (w : Nat) (r : Request) (resp : HttpResponse)
    (body : String) (cr : CreateThingRequest) (u rb : String)
    (hread : r.body.readAllResult = Except.ok body)
    (hdec : decodeCreateThingRequest body = Except.ok cr)
    (hurl : urlParse (plugin.iotHubUrl ++ iotHubPath) = Except.ok u)
    (hrb : resp.bodyReadResult = Except.ok rb) :
    ((∃ req, (ServeHTTP plugin w r (Except.ok resp)).outcome = Outcome.forward w req)
        ↔ (200 ≤ resp.statusCode ∧ resp.statusCode < 300))
      ∧ (¬ (200 ≤ resp.statusCode ∧ resp.statusCode < 300) →
          (ServeHTTP plugin w r (Except.ok resp)).outcome
            = Outcome.response notFoundStatus notFoundBody) := by
  by_cases hc : 300 ≤ resp.statusCode ∨ resp.statusCode < 200
  · refine ⟨⟨?_, ?_⟩, ?_⟩
    · intro ⟨req, hfwd⟩
      simp [ServeHTTP, hread, hdec, hurl, hrb, hc] at hfwd
    · intro hin; omega
    · intro _; simp [ServeHTTP, hread, hdec, hurl, hrb, hc]
  · have hin : 200 ≤ resp.statusCode ∧ resp.statusCode < 300 := by omega
    refine ⟨⟨fun _ => hin, fun _ => ?_⟩, fun hni => absurd hin hni⟩
    exact ⟨{ headers := r.headers, body := NoOpCloser body },
      by simp [ServeHTTP, hread, hdec, hurl, hrb, hc]⟩

theorem serve_forward_iff_2xx_witness :
    (∃ req, (ServeHTTP examplePlugin 0 exampleRequest
        (Except.ok (respWith 200))).outcome = Outcome.forward 0 req)
      ∧ (∃ req, (ServeHTTP examplePlugin 0 exampleRequest
          (Except.ok (respWith 201))).outcome = Outcome.forward 0 req)
      ∧ (∃ req, (ServeHTTP examplePlugin 0 exampleRequest
          (Except.ok (respWith 299))).outcome = Outcome.forward 0 req)
      ∧ (ServeHTTP examplePlugin 0 exampleRequest (Except.ok (respWith 300))).outcome
          = Outcome.response notFoundStatus notFoundBody
      ∧ (ServeHTTP examplePlugin 0 exampleRequest (Except.ok (respWith 199))).outcome
          = Outcome.response notFoundStatus notFoundBody := by
  refine ⟨?_, ?_, ?_, ?_, ?_⟩
  · exact (serve_forward_iff_2xx examplePlugin 0 exampleRequest (respWith 200)
      exampleBody ⟨⟨"dev-123", "TRACKER"⟩⟩
      "http://iothub.example/simulator/simulated/device" "created"
      rfl rfl rfl rfl).1.mpr (by decide)
  · exact (serve_forward_iff_2xx examplePlugin 0 exampleRequest (respWith 201)
      exampleBody ⟨⟨"dev-123", "TRACKER"⟩⟩
      "http://iothub.example/simulator/simulated/device" "created"
      rfl rfl rfl rfl).1.mpr (by decide)
  · exact (serve_forward_iff_2xx examplePlugin 0 exampleRequest (respWith 299)
      exampleBody ⟨⟨"dev-123", "TRACKER"⟩⟩
      "http://iothub.example/simulator/simulated/device" "created"
      rfl rfl rfl rfl).1.mpr (by decide)
  · exact (serve_forward_iff_2xx examplePlugin 0 exampleRequest (respWith 300)
      exampleBody ⟨⟨"dev-123", "TRACKER"⟩⟩
      "http://iothub.example/simulator/simulated/device" "created"
      rfl rfl rfl rfl).2 (by decide)
  · exact (serve_forward_iff_2xx examplePlugin 0 exampleRequest (respWith 199)
      exampleBody ⟨⟨"dev-123", "TRACKER"⟩⟩
      "http://iothub.example/simulator/simulated/device" "created"
      rfl rfl rfl rfl).2 (by decide)

/-- C3 counterexample: a JSON body missing the `deviceLinkOperation` key
does not fail decoding (Go leaves the struct at its zero value), so with
a successful outbound call the downstream handler IS invoked and no
not-found response is produced, contrary to the claim. -/
theorem missing_key_body_is_forwarded :
    decodeCreateThingRequest "\x7b\x7d" = Except.ok CreateThingRequest.zero
      ∧ (ServeHTTP examplePlugin 0
            { headers := [],
              body := { readAllResult := Except.ok "\x7b\x7d", closeResult := none } }
            (Except.ok (respWith 200))).outcome
          = Outcome.forward 0 { headers := [], body := NoOpCloser "\x7b\x7d" } :=
  ⟨rfl, rfl⟩

/-- C3 (amended): every inbound body that fails JSON decoding — e.g. an
empty body or the body `not json` — produces a not-found response and
the downstream handler is never invoked; a JSON body missing the
`deviceLinkOperation` key, however, decodes successfully (to the zero
value) and is not such a failure. -/
theorem decode_failure_not_found
    (plugin : SimulatedPlugin) (w : Nat) (r : Request)
    (doResult : Except String HttpResponse) (body e : String)
    (hread : r.body.readAllResult = Except.ok body)
    (hdec : decodeCreateThingRequest body = Except.error e) :
    (ServeHTTP plugin w r doResult).outcome = Outcome.response notFoundStatus notFoundBody
      ∧ (∀ w2 req, (ServeHTTP plugin w r doResult).outcome ≠ Outcome.forward w2 req)
      ∧ decodeCreateThingRequest "" = Except.error "EOF"
      ∧ (∃ e2, decodeCreateThingRequest "not json" = Except.error e2)
      ∧ decodeCreateThingRequest "\x7b\x7d" = Except.ok CreateThingRequest.zero := by
  have houtcome : (ServeHTTP plugin w r doResult).outcome
      = Outcome.response notFoundStatus notFoundBody := by
    simp [ServeHTTP, hread, hdec]
  refine ⟨houtcome, ?_, rfl, ⟨"invalid literal", rfl⟩, rfl⟩
  intro w2 req h
  rw [houtcome] at h
  exact Outcome.noConfusion h

theorem decode_failure_not_found_witness :
    (ServeHTTP examplePlugin 0
        { headers := [], body := { readAllResult := Except.ok "", closeResult := none } }
        (Except.ok (respWith 200))).outcome
      = Outcome.response notFoundStatus notFoundBody :=
  (decode_failure_not_found examplePlugin 0
    { headers := [], body := { readAllResult := Except.ok "", closeResult := none } }
    (Except.ok (respWith 200)) "" "EOF" rfl rfl).1

/-- C4: whenever the pipeline reaches the outbound call, the
subscription-key header on the outbound request equals exactly the
configured subscription key, whatever values the inbound request carried
under that header name (`Header.Set` after the copy loop always
overwrites them). -/
theorem subscription_key_always_configured
    (plugin : SimulatedPlugin) (w : Nat) (r : Request)
    (doResult : Except String HttpResponse) (body : String)
    (cr : CreateThingRequest) (u : String)
    (hread : r.body.readAllResult = Except.ok body)
    (hdec : decodeCreateThingRequest body = Except.ok cr)
    (hurl : urlParse (plugin.iotHubUrl ++ iotHubPath) = Except.ok u) :
    ∃ req, (ServeHTTP plugin w r doResult).outboundReq = some req
      ∧ req.headers subscriptionKeyHeader = [plugin.subscriptionKey] :=
  ⟨_, serve_outboundReq plugin w r doResult body cr u hread hdec hurl,
    by simp [headerSet]⟩

theorem subscription_key_always_configured_witness :
    ∃ req, (ServeHTTP examplePlugin 0 exampleRequest
        (Except.ok (respWith 200))).outboundReq = some req
      ∧ req.headers subscriptionKeyHeader = ["secret-key"] :=
  subscription_key_always_configured examplePlugin 0 exampleRequest
    (Except.ok (respWith 200)) exampleBody ⟨⟨"dev-123", "TRACKER"⟩⟩
    "http://iothub.example/simulator/simulated/device" rfl rfl rfl

/-- C5: for every successfully decoded payload the outbound request is a
POST to the configured base URL concatenated with the fixed path
`/simulator/simulated/device`, with body the JSON encoding of the struct
whose `hardwareId` is the inbound identifier, `productId` the inbound
product and `simulatorType` the constant "MANUAL"; for the spec's
example payload the outbound body deserialises to exactly that
object. -/
theorem outbound_provisioning_contract
    (plugin : SimulatedPlugin) (w : Nat) (r : Request)
    (doResult : Except String HttpResponse) (body : String)
    (cr : CreateThingRequest) (u : String)
    (hread : r.body.readAllResult = Except.ok body)
    (hdec : decodeCreateThingRequest body = Except.ok cr)
    (hurl : urlParse (plugin.iotHubUrl ++ iotHubPath) = Except.ok u) :
    (∃ req, (ServeHTTP plugin w r doResult).outboundReq = some req
        ∧ req.method = "POST"
        ∧ req.url = plugin.iotHubUrl ++ "/simulator/simulated/device"
        ∧ req.body = encodeCreateSimulatedDeviceRequest
            { hardwareId := cr.deviceLinkOperation.hardwareId,
              product := cr.deviceLinkOperation.product,
              simulatorType := SimulatorTypeManual })
      ∧ decodeCreateThingRequest exampleBody = Except.ok ⟨⟨"dev-123", "TRACKER"⟩⟩
      ∧ parseJsonDocument (encodeCreateSimulatedDeviceRequest
            { hardwareId := "dev-123", product := "TRACKER",
              simulatorType := SimulatorTypeManual })
          = Except.ok (Json.obj [("hardwareId", Json.str "dev-123"),
              ("productId", Json.str "TRACKER"),
              ("simulatorType", Json.str "MANUAL")]) := by
  refine ⟨⟨_, serve_outboundReq plugin w r doResult body cr u hread hdec hurl,
    rfl, ?_, rfl⟩, rfl, rfl⟩
  exact (urlParse_ok _ u hurl)

theorem outbound_provisioning_contract_witness :
    ∃ req, (ServeHTTP examplePlugin 0 exampleRequest
        (Except.ok (respWith 200))).outboundReq = some req
      ∧ req.method = "POST"
      ∧ req.url = "http://iothub.example" ++ "/simulator/simulated/device"
      ∧ req.body = encodeCreateSimulatedDeviceRequest
          { hardwareId := "dev-123", product := "TRACKER",
            simulatorType := SimulatorTypeManual } :=
  (outbound_provisioning_contract examplePlugin 0 exampleRequest
    (Except.ok (respWith 200)) exampleBody ⟨⟨"dev-123", "TRACKER"⟩⟩
    "http://iothub.example/simulator/simulated/device" rfl rfl rfl).1

/-- C6: every failure at any reachable pipeline stage (body read, payload
decode, URL build, outbound transport, non-2xx status, outbound response
read — the request-encode stage cannot fail for this payload type)
produces exactly the not-found response with no forwarding, and the only
other observable outcome is the success forward of the body-restored
request. -/
theorem failures_collapse_to_not_found
    (plugin : SimulatedPlugin) (w : Nat) (r : Request)
    (doResult : Except String HttpResponse) :
    (AllStagesOk plugin r doResult = false →
        (ServeHTTP plugin w r doResult).outcome
          = Outcome.response notFoundStatus notFoundBody)
      ∧ ((ServeHTTP plugin w r doResult).outcome
            = Outcome.response notFoundStatus notFoundBody
          ∨ ∃ body, r.body.readAllResult = Except.ok body
              ∧ (ServeHTTP plugin w r doResult).outcome
                  = Outcome.forward w { headers := r.headers, body := NoOpCloser body }) := by
  cases hread : r.body.readAllResult with
  | error e => simp [ServeHTTP, AllStagesOk, hread]
  | ok body =>
    cases hdec : decodeCreateThingRequest body with
    | error e => simp [ServeHTTP, AllStagesOk, hread, hdec]
    | ok cr =>
      cases hurl : urlParse (plugin.iotHubUrl ++ iotHubPath) with
      | error e => simp [ServeHTTP, AllStagesOk, hread, hdec, hurl]
      | ok u =>
        cases doResult with
        | error e => simp [ServeHTTP, AllStagesOk, hread, hdec, hurl]
        | ok resp =>
          by_cases hc : 300 ≤ resp.statusCode ∨ resp.statusCode < 200
          · simp [ServeHTTP, AllStagesOk, hread, hdec, hurl, hc]
          · cases hrb : resp.bodyReadResult with
            | error e => simp [ServeHTTP, AllStagesOk, hread, hdec, hurl, hc, hrb]
            | ok rb =>
              constructor
              · intro hfalse
                simp [AllStagesOk, hread, hdec, hurl, hc, hrb] at hfalse
              · right
                exact ⟨body, rfl, by simp [ServeHTTP, hread, hdec, hurl, hc, hrb]⟩

theorem failures_collapse_to_not_found_witness :
    (ServeHTTP examplePlugin 0
        { headers := [], body := { readAllResult := Except.error "io error", closeResult := none } }
        (Except.error "connection refused")).outcome
      = Outcome.response notFoundStatus notFoundBody :=
  (failures_collapse_to_not_found examplePlugin 0
    { headers := [], body := { readAllResult := Except.error "io error", closeResult := none } }
    (Except.error "connection refused")).1 rfl

/-- C7 (code bug): the source constructs diagnostic `LogEvent`s at each
decision point, but `logInfo`/`logWarn`/`logError` only build the record
and every call site discards it — `LogEvent.print`, the sole writer to
standard output, is never invoked — so no run of `ServeHTTP` writes any
log line to standard output, even though log records are built (here two
for a fully successful run). -/
theorem log_records_never_printed :
    (∀ (plugin : SimulatedPlugin) (w : Nat) (r : Request)
        (doResult : Except String HttpResponse),
        (ServeHTTP plugin w r doResult).printed = [])
      ∧ (ServeHTTP examplePlugin 0 exampleRequest (Except.ok (respWith 200))).logs
          = [logWarn "found deviceId=dev-123", logError "iot hub device created: created"]
      ∧ (ServeHTTP examplePlugin 0 exampleRequest (Except.ok (respWith 200))).printed
          = [] :=
  ⟨serve_printed_empty, rfl, rfl⟩

/-- C8: whenever the pipeline reaches the outbound call, every inbound
header is copied onto the outbound request with all of its values in
order, and no outbound header other than the subscription-key header
differs from the inbound headers (the inbound map has one entry per
name, as Go maps do). -/
theorem inbound_headers_copied_verbatim
    (plugin : SimulatedPlugin) (w : Nat) (r : Request)
    (doResult : Except String HttpResponse) (body : String)
    (cr : CreateThingRequest) (u : String)
    (hread : r.body.readAllResult = Except.ok body)
    (hdec : decodeCreateThingRequest body = Except.ok cr)
    (hurl : urlParse (plugin.iotHubUrl ++ iotHubPath) = Except.ok u)
    (hnodup : (r.headers.map Prod.fst).Nodup) :
    ∃ req, (ServeHTTP plugin w r doResult).outboundReq = some req
      ∧ (∀ k, k ≠ subscriptionKeyHeader →
          req.headers k = ((r.headers.lookup k).getD []))
      ∧ req.headers subscriptionKeyHeader = [plugin.subscriptionKey] := by
  refine ⟨_, serve_outboundReq plugin w r doResult body cr u hread hdec hurl,
    ?_, by simp [headerSet]⟩
  intro k hk
  simp only [headerSet, if_neg hk]
  exact copyHeaders_apply r.headers k hnodup

theorem inbound_headers_copied_verbatim_witness :
    ∃ req, (ServeHTTP examplePlugin 0 exampleRequest
        (Except.ok (respWith 200))).outboundReq = some req
      ∧ (∀ k, k ≠ subscriptionKeyHeader →
          req.headers k = ((exampleRequest.headers.lookup k).getD []))
      ∧ req.headers subscriptionKeyHeader = ["secret-key"] :=
  inbound_headers_copied_verbatim examplePlugin 0 exampleRequest
    (Except.ok (respWith 200)) exampleBody ⟨⟨"dev-123", "TRACKER"⟩⟩
    "http://iothub.example/simulator/simulated/device" rfl rfl rfl (by decide)

/-- C9: payload decoding reads only the first JSON value of the body — a
body consisting of a complete JSON object (here: one whose scan ends
exactly at its closing brace) followed by arbitrary trailing bytes
decodes to exactly what the object alone decodes to, rather than being
rejected as malformed. -/
theorem trailing_bytes_ignored (s g : String) (rest v : List Char)
    (cr : CreateThingRequest)
    (hws : skipWS s.data = '{' :: rest)
    (hscan : scanContainer rest 1 false false = some (v, []))
    (hok : decodeCreateThingRequest s = Except.ok cr) :
    decodeCreateThingRequest (s ++ g) = Except.ok cr := by
  rw [decodeCreateThingRequest_append s g rest v hws hscan, hok]

theorem trailing_bytes_ignored_witness :
    decodeCreateThingRequest ("\x7b\"deviceLinkOperation\":\x7b\x7d\x7d" ++ "garbage")
      = Except.ok CreateThingRequest.zero :=
  trailing_bytes_ignored "\x7b\"deviceLinkOperation\":\x7b\x7d\x7d" "garbage"
    ("\"deviceLinkOperation\":\x7b\x7d\x7d".data)
    ("\"deviceLinkOperation\":\x7b\x7d\x7d".data)
    CreateThingRequest.zero rfl rfl rfl

/-- C10: the inbound product field is never validated against the
TRACKER enumeration — every decoded payload is forwarded with its
product string verbatim as `productId` (and its identifier as
`hardwareId`); a payload with product "TOASTER" decodes and encodes
verbatim, and a body missing the whole envelope decodes to empty
identifier and product. -/
theorem product_never_validated
    (plugin : SimulatedPlugin) (w : Nat) (r : Request)
    (doResult : Except String HttpResponse) (body : String)
    (cr : CreateThingRequest) (u : String)
    (hread : r.body.readAllResult = Except.ok body)
    (hdec : decodeCreateThingRequest body = Except.ok cr)
    (hurl : urlParse (plugin.iotHubUrl ++ iotHubPath) = Except.ok u) :
    (∃ req, (ServeHTTP plugin w r doResult).outboundReq = some req
        ∧ req.body = encodeCreateSimulatedDeviceRequest
            { hardwareId := cr.deviceLinkOperation.hardwareId,
              product := cr.deviceLinkOperation.product,
              simulatorType := SimulatorTypeManual })
      ∧ decodeCreateThingRequest "\x7b\x7d" = Except.ok CreateThingRequest.zero
      ∧ decodeCreateThingRequest
            "\x7b\"deviceLinkOperation\":\x7b\"identifier\":\"dev-9\",\"product\":\"TOASTER\"\x7d\x7d"
          = Except.ok ⟨⟨"dev-9", "TOASTER"⟩⟩
      ∧ encodeCreateSimulatedDeviceRequest
            { hardwareId := "dev-9", product := "TOASTER",
              simulatorType := SimulatorTypeManual }
          = "\x7b\"hardwareId\":\"dev-9\",\"productId\":\"TOASTER\",\"simulatorType\":\"MANUAL\"\x7d\n"
      ∧ ("TOASTER" : Product) ≠ ProductTracker :=
  ⟨⟨_, serve_outboundReq plugin w r doResult body cr u hread hdec hurl, rfl⟩,
    rfl, rfl, rfl, by decide⟩

theorem product_never_validated_witness :
    ∃ req, (ServeHTTP examplePlugin 0 toasterRequest
        (Except.ok (respWith 200))).outboundReq = some req
      ∧ req.body = encodeCreateSimulatedDeviceRequest
          { hardwareId := "dev-9", product := "TOASTER",
            simulatorType := SimulatorTypeManual } :=
  (product_never_validated examplePlugin 0 toasterRequest
    (Except.ok (respWith 200)) toasterBody ⟨⟨"dev-9", "TOASTER"⟩⟩
    "http://iothub.example/simulator/simulated/device" rfl rfl rfl).1

end TraefikCreateSimulated
